import Mathlib

/-!
# Verification of the zenoh-python query example and its inferred query/reply core

The repository ships a single example script, `examples/zenoh-net/zn_query.py`,
which opens a session, issues `session.query(ResKey.RName(selector), '', query_callback)`,
and closes the session.  The query/reply core it exercises (resource-key matcher,
query dispatcher, reply aggregator, session table) lives in the external zenoh
library; the specification describes that core.  This file embeds:

* the example's `query_callback` (translated from the source), together with a
  byte-exact model of Python's strict `bytes.decode("utf-8")`;
* the query/reply core, modelled from the specification where the library code
  is not part of the source tree.
-/

namespace Zenoh

/-! ## Resource Key Matcher -/

/-- Splits a list of characters into path segments at `'/'`.
The accumulator holds the current segment's characters in reverse. -/
def splitAux : List Char → List Char → List String
  | [], acc => [String.mk acc.reverse]
  | c :: cs, acc =>
    if c = '/' then String.mk acc.reverse :: splitAux cs []
    else splitAux cs (c :: acc)

/-- Splits a path string into its `'/'`-separated segments. -/
def splitSegs (s : String) : List String :=
  splitAux s.data []

/-- Segment-wise glob matching of a published name (first argument) against the
segments of a selector (second argument): a literal segment matches itself,
`*` matches exactly one segment, and `**` matches zero or more segments; the
`**` case tries every way of consuming name segments, which realises the
spec's greedy-with-backtracking semantics. -/
def glob (ps : List String) : List String → Bool
  | [] => ps.isEmpty
  | s :: ss =>
    if s = "**" then (List.range (ps.length + 1)).any fun k => glob (ps.drop k) ss
    else
      match ps with
      | [] => false
      | p :: ps' => if s = "*" then glob ps' ss else p == s && glob ps' ss

/-- Whether a selector key contains a wildcard character `'*'`. -/
def hasWildcard (s : String) : Bool :=
  s.data.any fun c => c = '*'

/-- Modelled from the spec: the Resource Key Matcher
`matches(published_name, selector_key) -> bool` of §4.1 is not part of the
source tree (it lives in the external zenoh library).  Per the spec: the empty
selector matches nothing; a selector without wildcards is an exact string
match with no segment splitting; otherwise selector segments are split on
`'/'`, `*` matches exactly one segment and `**` matches zero or more segments
with backtracking. -/
def matchesKey (p s : String) : Bool :=
  if s.data = [] then false
  else if hasWildcard s = false then p == s
  else glob (splitSegs p) (splitSegs s)

theorem glob_doubleStar (xs : List String) : glob xs ["**"] = true := by
  show ((List.range (xs.length + 1)).any fun k => glob (xs.drop k) []) = true
  rw [List.any_eq_true]
  refine ⟨xs.length, List.mem_range.mpr (Nat.lt_succ_self _), ?_⟩
  simp [glob]

/-- C1: the resource-key matcher implements glob-over-path semantics — for
every published name P, `matchesKey P "**"` is true; `matchesKey "a/b/c" "a/**/c"`
and `matchesKey "a/c" "a/**/c"` are true; `matchesKey "a/b/x/c" "a/*/c"` is false. -/
theorem matchesKey_glob_semantics :
    (∀ p : String, matchesKey p "**" = true) ∧
    matchesKey "a/b/c" "a/**/c" = true ∧
    matchesKey "a/c" "a/**/c" = true ∧
    matchesKey "a/b/x/c" "a/*/c" = false := by
  refine ⟨fun p => ?_, by decide, by decide, by decide⟩
  have h : matchesKey p "**" = glob (splitSegs p) ["**"] := rfl
  rw [h, glob_doubleStar]

/-- C7 counterexample: at P = "" and S = "" the selector contains no wildcard,
yet `matchesKey "" ""` is false while `"" == ""` is true, so
`matchesKey P S = (P == S)` fails for this wildcard-free selector. -/
theorem matchesKey_exact_eq_counterexample :
    hasWildcard "" = false ∧ matchesKey "" "" ≠ (("" : String) == "") := by
  decide

/-- C7 (amended): for every published name P and nonempty selector S containing
no wildcard characters, `matchesKey P S` equals the string equality `P == S`. -/
theorem matchesKey_exact_eq (p s : String) (hne : s ≠ "") (hw : hasWildcard s = false) :
    matchesKey p s = (p == s) := by
  have hd : ¬ s.data = [] := fun h => hne (by cases s; simp_all)
  unfold matchesKey
  rw [if_neg hd, if_pos hw]

theorem matchesKey_exact_eq_witness :
    ("a/b" : String) ≠ "" ∧ hasWildcard "a/b" = false ∧
    matchesKey "a/b" "a/b" = (("a/b" : String) == "a/b") :=
  ⟨by decide, by decide, matchesKey_exact_eq "a/b" "a/b" (by decide) (by decide)⟩

/-- C8: the empty selector matches nothing — `matchesKey P ""` is false for
every published name P, including the empty published name. -/
theorem matchesKey_empty_selector :
    (∀ p : String, matchesKey p "" = false) ∧ matchesKey "" "" = false :=
  ⟨fun _ => rfl, rfl⟩

/-! ## Replies, as accessed by the example script -/

/-- A timestamp, accessed by the example as `timestamp.time` (a u64 NTP time). -/
structure Timestamp where
  time : Nat

/-- Optional data info attached to a sample; the example accesses
`data_info.timestamp`. -/
structure DataInfo where
  timestamp : Timestamp

/-- A data sample, accessed by the example as `reply.data.res_name`,
`reply.data.payload` (raw bytes) and `reply.data.data_info`. -/
structure Sample where
  res_name : String
  payload : List Nat
  data_info : Option DataInfo

/-- A reply delivered to a query callback; the example accesses `reply.data`. -/
structure Reply where
  data : Sample

/-! ## Session, Query Dispatcher and Reply Aggregator

Modelled from the spec (§3–§5): the Session/dispatcher/aggregator code is the
external zenoh library and is not part of the source tree. -/

/-- Modelled from the spec: a user callback either returns or raises; a raised
error is represented as `Except.error` with a message. -/
abbrev Callback := Reply → Except String Unit

/-- Modelled from the spec: a PendingQuery entry — selector and registered
callback.  Entries in the table are implicitly in the `Open` state, since the
spec destroys entries on the transition to `Completed` or `TimedOut`. -/
structure PendingQuery where
  selector : String
  callback : Callback

/-- Modelled from the spec: the Session owns the table of PendingQuery keyed by
correlation id, plus the monotonically increasing id counter and the open
flag. -/
structure Session where
  isOpen : Bool
  nextId : Nat
  table : List (Nat × PendingQuery)

/-- The state of a freshly opened Session. -/
def sessionInit : Session :=
  { isOpen := true, nextId := 0, table := [] }

/-- Synchronous errors of `query` per the spec's §7 error table. -/
inductive QueryError where
  | sessionClosed
  | invalidSelector
deriving DecidableEq

/-- Modelled from the spec: the spec does not define selector malformedness
beyond the empty selector matching nothing; malformed is modelled as the empty
selector key. -/
def validSelector (s : String) : Bool :=
  s != ""

/-- Modelled from the spec: `dispatch` issues the current counter value as the
correlation id, registers the PendingQuery in the table before returning, and
increments the counter. -/
def dispatch (st : Session) (sel : String) (cb : Callback) : Nat × Session :=
  (st.nextId,
   { st with nextId := st.nextId + 1, table := (st.nextId, ⟨sel, cb⟩) :: st.table })

/-- Modelled from the spec: `query` fails synchronously with `SessionClosed`
when no session is open and with `InvalidSelector` on a malformed selector —
in both cases without registering anything — and otherwise dispatches. -/
def query (st : Session) (sel : String) (cb : Callback) :
    Except QueryError Nat × Session :=
  if st.isOpen = false then (Except.error QueryError.sessionClosed, st)
  else if validSelector sel = false then (Except.error QueryError.invalidSelector, st)
  else
    let r := dispatch st sel cb
    (Except.ok r.1, r.2)

/-- An inbound reply message: correlation id plus the decoded reply body. -/
structure RawReply where
  correlation_id : Nat
  body : Reply

/-- A record of one callback invocation performed by the aggregator: the
correlation id it was delivered for and the callback's outcome (a caught
error is logged here, never propagated). -/
structure Delivery where
  cid : Nat
  outcome : Except String Unit

/-- Modelled from the spec: the aggregator's `on_reply` looks the correlation
id up in the table; unknown ids are silently dropped with no callback and no
table change; otherwise the registered callback is invoked with the reply,
any error being caught and recorded, and the entry stays `Open` (reply
delivery causes no state transition). -/
def on_reply (st : Session) (r : RawReply) : Session × Option Delivery :=
  match st.table.lookup r.correlation_id with
  | none => (st, none)
  | some pq => (st, some ⟨r.correlation_id, pq.callback r.body⟩)

/-- Modelled from the spec: `on_timeout` transitions the entry to `TimedOut`,
which removes it from the table; no callback is invoked. -/
def on_timeout (st : Session) (cid : Nat) : Session :=
  { st with table := st.table.filter fun e => e.1 != cid }

/-- Modelled from the spec: an explicit end-of-replies signal transitions the
entry to `Completed`, which removes it from the table. -/
def on_complete (st : Session) (cid : Nat) : Session :=
  { st with table := st.table.filter fun e => e.1 != cid }

/-- Modelled from the spec: `close` stops accepting new queries and tears the
table down, transitioning all Open entries to `TimedOut` while invoking no
further callbacks (the spec's no-notification policy choice). -/
def close (st : Session) : Session :=
  { isOpen := false, nextId := st.nextId, table := [] }

/-- One step of the Session: any of the operations the core exposes. -/
inductive Step : Session → Session → Prop
  | queryStep (st : Session) (sel : String) (cb : Callback) : Step st (query st sel cb).2
  | replyStep (st : Session) (r : RawReply) : Step st (on_reply st r).1
  | timeoutStep (st : Session) (cid : Nat) : Step st (on_timeout st cid)
  | completeStep (st : Session) (cid : Nat) : Step st (on_complete st cid)
  | closeStep (st : Session) : Step st (close st)

/-- Session states reachable from a freshly opened Session. -/
inductive Reachable : Session → Prop
  | init : Reachable sessionInit
  | step {st st' : Session} : Reachable st → Step st st' → Reachable st'

/-- The correlation-id invariant: every id in the table is below the counter,
and the table's ids are pairwise distinct. -/
def IdInv (st : Session) : Prop :=
  (∀ e ∈ st.table, e.1 < st.nextId) ∧ (st.table.map Prod.fst).Nodup

theorem idInv_init : IdInv sessionInit := by
  constructor
  · intro e he
    simp [sessionInit] at he
  · simp [sessionInit]

theorem idInv_step {st st' : Session} (h : IdInv st) (hs : Step st st') : IdInv st' := by
  obtain ⟨hlt, hnd⟩ := h
  cases hs with
  | queryStep sel cb =>
    unfold query
    by_cases h1 : st.isOpen = false
    · rw [if_pos h1]; exact ⟨hlt, hnd⟩
    · rw [if_neg h1]
      by_cases h2 : validSelector sel = false
      · rw [if_pos h2]; exact ⟨hlt, hnd⟩
      · rw [if_neg h2]
        refine ⟨?_, ?_⟩
        · intro e he
          simp only [dispatch, List.mem_cons] at he
          rcases he with rfl | he
          · exact Nat.lt_succ_self _
          · exact Nat.lt_succ_of_lt (hlt e he)
        · simp only [dispatch, List.map_cons, List.nodup_cons]
          refine ⟨?_, hnd⟩
          intro hmem
          rcases List.mem_map.mp hmem with ⟨e, he, hfst⟩
          exact absurd (hfst ▸ hlt e he) (Nat.lt_irrefl _)
  | replyStep r =>
    unfold on_reply
    cases st.table.lookup r.correlation_id <;> exact ⟨hlt, hnd⟩
  | timeoutStep cid =>
    refine ⟨fun e he => hlt e (List.mem_of_mem_filter he), ?_⟩
    exact hnd.sublist ((List.filter_sublist _).map Prod.fst)
  | completeStep cid =>
    refine ⟨fun e he => hlt e (List.mem_of_mem_filter he), ?_⟩
    exact hnd.sublist ((List.filter_sublist _).map Prod.fst)
  | closeStep =>
    exact ⟨fun e he => by simp [close] at he, by simp [close]⟩

theorem idInv_reachable {st : Session} (h : Reachable st) : IdInv st := by
  induction h with
  | init => exact idInv_init
  | step _ hs ih => exact idInv_step ih hs

/-- C2: in every reachable Session state the correlation ids of the open
PendingQuery entries are pairwise distinct, and every issued id is below the
monotonically increasing counter. -/
theorem correlation_ids_unique (st : Session) (h : Reachable st) :
    (st.table.map Prod.fst).Nodup ∧ ∀ e ∈ st.table, e.1 < st.nextId :=
  ⟨(idInv_reachable h).2, (idInv_reachable h).1⟩

/-- A callback that returns normally, used to exercise the model. -/
def cbOk : Callback := fun _ => Except.ok ()

theorem correlation_ids_unique_witness :
    (((query (query sessionInit "/demo/a" cbOk).2 "/demo/b" cbOk).2.table.map Prod.fst).Nodup ∧
      ∀ e ∈ (query (query sessionInit "/demo/a" cbOk).2 "/demo/b" cbOk).2.table,
        e.1 < (query (query sessionInit "/demo/a" cbOk).2 "/demo/b" cbOk).2.nextId) :=
  correlation_ids_unique _
    (Reachable.step (Reachable.step Reachable.init (Step.queryStep sessionInit "/demo/a" cbOk))
      (Step.queryStep (query sessionInit "/demo/a" cbOk).2 "/demo/b" cbOk))

/-- C3: on a malformed selector, `query` fails synchronously with
`InvalidSelector` and has no side effect: the returned Session state is the
unchanged input state, so in particular no PendingQuery is registered. -/
theorem query_invalid_selector_atomic (st : Session) (sel : String) (cb : Callback)
    (hopen : st.isOpen = true) (hsel : validSelector sel = false) :
    query st sel cb = (Except.error QueryError.invalidSelector, st) := by
  unfold query
  rw [hopen]
  simp [hsel]

theorem query_invalid_selector_atomic_witness :
    sessionInit.isOpen = true ∧ validSelector "" = false ∧
    query sessionInit "" cbOk = (Except.error QueryError.invalidSelector, sessionInit) :=
  ⟨rfl, rfl, query_invalid_selector_atomic sessionInit "" cbOk rfl rfl⟩

/-- C4: a reply whose correlation id is not in the PendingQuery table is a
no-op for `on_reply`: the Session state is returned unchanged and no callback
invocation is recorded. -/
theorem on_reply_unknown_id_noop (st : Session) (r : RawReply)
    (h : st.table.lookup r.correlation_id = none) :
    on_reply st r = (st, none) := by
  unfold on_reply
  rw [h]

/-- A sample reply used to exercise the model at concrete inputs. -/
def replyA : Reply :=
  ⟨{ res_name := "/demo/example/item", payload := [104, 105], data_info := none }⟩

theorem on_reply_unknown_id_noop_witness :
    sessionInit.table.lookup 5 = none ∧
    on_reply sessionInit ⟨5, replyA⟩ = (sessionInit, none) :=
  ⟨rfl, on_reply_unknown_id_noop sessionInit ⟨5, replyA⟩ rfl⟩

/-- The aggregator's delivery loop over a batch of inbound replies, recording
every callback invocation it performs. -/
def deliver_loop (st : Session) : List RawReply → Session × List Delivery
  | [] => (st, [])
  | r :: rs =>
    let p := on_reply st r
    let q := deliver_loop p.1 rs
    match p.2 with
    | none => q
    | some d => (q.1, d :: q.2)

/-- C5: a callback that errors is caught by the aggregator — the error is
recorded in the delivery log, the Session state (and hence every other
PendingQuery entry) is unchanged, and the delivery loop goes on to process
the remaining replies exactly as it would from the same state. -/
theorem callback_error_isolated (st : Session) (r : RawReply) (rs : List RawReply)
    (pq : PendingQuery) (e : String)
    (hfind : st.table.lookup r.correlation_id = some pq)
    (herr : pq.callback r.body = Except.error e) :
    (on_reply st r).1 = st ∧
    deliver_loop st (r :: rs) =
      ((deliver_loop st rs).1,
        Delivery.mk r.correlation_id (Except.error e) :: (deliver_loop st rs).2) := by
  have h1 : on_reply st r = (st, some ⟨r.correlation_id, Except.error e⟩) := by
    unfold on_reply
    rw [hfind]
    simp [herr]
  refine ⟨by rw [h1], ?_⟩
  show (let p := on_reply st r
        let q := deliver_loop p.1 rs
        match p.2 with
        | none => q
        | some d => (q.1, d :: q.2)) = _
  rw [h1]

/-- A callback that always raises, used to exercise the model. -/
def cbFail : Callback := fun _ => Except.error "boom"

/-- A Session with a single open PendingQuery whose callback raises. -/
def sessionFail : Session :=
  { isOpen := true, nextId := 1, table := [(0, ⟨"/demo/a", cbFail⟩)] }

theorem callback_error_isolated_witness :
    sessionFail.table.lookup 0 = some ⟨"/demo/a", cbFail⟩ ∧
    cbFail replyA = Except.error "boom" ∧
    ((on_reply sessionFail ⟨0, replyA⟩).1 = sessionFail ∧
      deliver_loop sessionFail [⟨0, replyA⟩] =
        ((deliver_loop sessionFail []).1,
          Delivery.mk 0 (Except.error "boom") :: (deliver_loop sessionFail []).2)) :=
  ⟨rfl, rfl, callback_error_isolated sessionFail ⟨0, replyA⟩ [] ⟨"/demo/a", cbFail⟩ "boom" rfl rfl⟩

/-! ## Linearized event traces

Modelled from the spec (§5): the PendingQuery table is protected by a
mutual-exclusion discipline, and `close` synchronizes with in-flight
`on_reply` calls, so every execution is equivalent to a linear sequence of
whole events; an interleaving is modelled as such a sequence, with "after
`close()` returns" meaning "after the close event in the sequence". -/

/-- One linearized event acting on a Session. -/
inductive Event where
  | replyEv (r : RawReply)
  | queryEv (sel : String) (cb : Callback)
  | timeoutEv (cid : Nat)
  | completeEv (cid : Nat)
  | closeEv

/-- Executes one event, returning the next state and the callback invocations
the event performed. -/
def execEvent (st : Session) : Event → Session × List Delivery
  | Event.replyEv r =>
    let p := on_reply st r
    (p.1, p.2.toList)
  | Event.queryEv sel cb => ((query st sel cb).2, [])
  | Event.timeoutEv cid => (on_timeout st cid, [])
  | Event.completeEv cid => (on_complete st cid, [])
  | Event.closeEv => (close st, [])

/-- Runs a linear sequence of events, collecting all callback invocations in
order. -/
def run (st : Session) : List Event → Session × List Delivery
  | [] => (st, [])
  | e :: es =>
    let p := execEvent st e
    let q := run p.1 es
    (q.1, p.2 ++ q.2)

/-- A torn-down Session: closed, with an empty PendingQuery table. -/
def Torn (st : Session) : Prop :=
  st.isOpen = false ∧ st.table = []

theorem torn_close (st : Session) : Torn (close st) :=
  ⟨rfl, rfl⟩

theorem execEvent_torn {st : Session} (h : Torn st) (e : Event) :
    Torn (execEvent st e).1 ∧ (execEvent st e).2 = [] := by
  obtain ⟨ho, ht⟩ := h
  cases e with
  | replyEv r =>
    have hr : on_reply st r = (st, none) := by
      unfold on_reply
      rw [ht]
      rfl
    constructor
    · show Torn (on_reply st r).1
      rw [hr]
      exact ⟨ho, ht⟩
    · show (on_reply st r).2.toList = []
      rw [hr]
      rfl
  | queryEv sel cb =>
    refine ⟨⟨?_, ?_⟩, rfl⟩ <;> simp [execEvent, query, ho, ht]
  | timeoutEv cid =>
    exact ⟨⟨ho, by simp [execEvent, on_timeout, ht]⟩, rfl⟩
  | completeEv cid =>
    exact ⟨⟨ho, by simp [execEvent, on_complete, ht]⟩, rfl⟩
  | closeEv =>
    exact ⟨⟨rfl, rfl⟩, rfl⟩

theorem run_torn {st : Session} (h : Torn st) (es : List Event) :
    (run st es).2 = [] := by
  induction es generalizing st with
  | nil => rfl
  | cons e es ih =>
    obtain ⟨h1, h2⟩ := execEvent_torn h e
    show ((execEvent st e).2 ++ (run (execEvent st e).1 es).2) = []
    rw [h2, ih h1]
    rfl

theorem run_append (st : Session) (es1 es2 : List Event) :
    (run st (es1 ++ es2)).2 = (run st es1).2 ++ (run (run st es1).1 es2).2 := by
  induction es1 generalizing st with
  | nil => rfl
  | cons e es1 ih =>
    show ((execEvent st e).2 ++ (run (execEvent st e).1 (es1 ++ es2)).2) = _
    rw [ih]
    simp [run]

/-- C6: in the linearized trace semantics mandated by the spec's
synchronization between `close` and in-flight `on_reply`, no callback is
invoked after the close event: a trace with events after `close` produces
exactly the invocations of its prefix before `close`. -/
theorem close_stops_deliveries (st : Session) (es1 es2 : List Event) :
    (run st (es1 ++ Event.closeEv :: es2)).2 = (run st es1).2 := by
  have h : Event.closeEv :: es2 = [Event.closeEv] ++ es2 := rfl
  rw [h, ← List.append_assoc, run_append]
  have h2 : (run st (es1 ++ [Event.closeEv])).1 = close (run st es1).1 := by
    rw [show es1 ++ [Event.closeEv] = es1 ++ [Event.closeEv] from rfl]
    induction es1 generalizing st with
    | nil => rfl
    | cons e es1 ih =>
      show (run (execEvent st e).1 (es1 ++ [Event.closeEv])).1 = _
      rw [ih]
      rfl
  rw [h2, run_torn (torn_close _) es2, run_append]
  have h3 : (run (run st es1).1 [Event.closeEv]).2 = [] := rfl
  rw [h3]
  simp

/-! ## Strict UTF-8 decoding, as performed by Python's `bytes.decode("utf-8")` -/

/-- Whether a byte is a UTF-8 continuation byte (`0b10xxxxxx`). -/
def isCont (b : Nat) : Bool :=
  decide (128 ≤ b) && decide (b < 192)

/-- The code point of a two-byte UTF-8 sequence. -/
def cp2 (b b1 : Nat) : Nat :=
  (b - 192) * 64 + (b1 - 128)

/-- The code point of a three-byte UTF-8 sequence. -/
def cp3 (b b1 b2 : Nat) : Nat :=
  (b - 224) * 4096 + (b1 - 128) * 64 + (b2 - 128)

/-- The code point of a four-byte UTF-8 sequence. -/
def cp4 (b b1 b2 b3 : Nat) : Nat :=
  (b - 240) * 262144 + (b1 - 128) * 4096 + (b2 - 128) * 64 + (b3 - 128)

/-- Validity of the continuation bytes of a three-byte sequence with lead `b`:
both must be continuation bytes, lead `0xE0` requires `b1 ≥ 0xA0` (no overlong
encodings) and lead `0xED` requires `b1 < 0xA0` (no surrogate code points). -/
def guard3 (b b1 b2 : Nat) : Bool :=
  isCont b1 && isCont b2 &&
    (b != 224 || decide (160 ≤ b1)) && (b != 237 || decide (b1 < 160))

/-- Validity of the continuation bytes of a four-byte sequence with lead `b`:
all must be continuation bytes, lead `0xF0` requires `b1 ≥ 0x90` (no overlong
encodings) and lead `0xF4` requires `b1 < 0x90` (nothing above U+10FFFF). -/
def guard4 (b b1 b2 b3 : Nat) : Bool :=
  isCont b1 && isCont b2 && isCont b3 &&
    (b != 240 || decide (144 ≤ b1)) && (b != 244 || decide (b1 < 144))

/-- Strict UTF-8 decoding of a byte sequence into its code points, as
performed by Python's `bytes.decode("utf-8")`: `none` on any ill-formed
input — stray or missing continuation bytes, overlong encodings, surrogate
code points and values above U+10FFFF are all rejected. -/
def utf8Decode : List Nat → Option (List Nat)
  | [] => some []
  | b :: bs =>
    if b < 128 then (utf8Decode bs).map fun cs => b :: cs
    else if b < 194 then none
    else if b < 224 then
      match bs with
      | [] => none
      | b1 :: rest =>
        if isCont b1 then (utf8Decode rest).map fun cs => cp2 b b1 :: cs else none
    else if b < 240 then
      match bs with
      | [] => none
      | b1 :: bs1 =>
        match bs1 with
        | [] => none
        | b2 :: rest =>
          if guard3 b b1 b2 then (utf8Decode rest).map fun cs => cp3 b b1 b2 :: cs else none
    else if b < 245 then
      match bs with
      | [] => none
      | b1 :: bs1 =>
        match bs1 with
        | [] => none
        | b2 :: bs2 =>
          match bs2 with
          | [] => none
          | b3 :: rest =>
            if guard4 b b1 b2 b3 then (utf8Decode rest).map fun cs => cp4 b b1 b2 b3 :: cs
            else none
    else none

/-- Validity of a byte sequence as strict UTF-8, stated as a recursive check
that never constructs code points. -/
def validUtf8 : List Nat → Bool
  | [] => true
  | b :: bs =>
    if b < 128 then validUtf8 bs
    else if b < 194 then false
    else if b < 224 then
      match bs with
      | [] => false
      | b1 :: rest => isCont b1 && validUtf8 rest
    else if b < 240 then
      match bs with
      | [] => false
      | b1 :: bs1 =>
        match bs1 with
        | [] => false
        | b2 :: rest => guard3 b b1 b2 && validUtf8 rest
    else if b < 245 then
      match bs with
      | [] => false
      | b1 :: bs1 =>
        match bs1 with
        | [] => false
        | b2 :: bs2 =>
          match bs2 with
          | [] => false
          | b3 :: rest => guard4 b b1 b2 b3 && validUtf8 rest
    else false

theorem isSome_map {α β : Type} (o : Option α) (f : α → β) :
    (o.map f).isSome = o.isSome := by
  cases o <;> rfl

set_option maxHeartbeats 2000000 in
theorem utf8Decode_isSome : ∀ l : List Nat, (utf8Decode l).isSome = validUtf8 l
  | [] => rfl
  | b :: bs => by
    rw [utf8Decode.eq_def, validUtf8.eq_def]
    dsimp only
    by_cases h1 : b < 128
    · rw [if_pos h1, if_pos h1, isSome_map, utf8Decode_isSome bs]
    rw [if_neg h1, if_neg h1]
    by_cases h2 : b < 194
    · rw [if_pos h2, if_pos h2]
      rfl
    rw [if_neg h2, if_neg h2]
    by_cases h3 : b < 224
    · rw [if_pos h3, if_pos h3]
      match bs with
      | [] => rfl
      | b1 :: rest =>
        dsimp only
        cases hc : isCont b1 with
        | true => rw [if_pos rfl, isSome_map, utf8Decode_isSome rest, Bool.true_and]
        | false =>
          rw [Bool.false_and]
          rfl
    rw [if_neg h3, if_neg h3]
    by_cases h4 : b < 240
    · rw [if_pos h4, if_pos h4]
      match bs with
      | [] => rfl
      | b1 :: bs1 =>
        dsimp only
        match bs1 with
        | [] => rfl
        | b2 :: rest =>
          dsimp only
          cases hc : guard3 b b1 b2 with
          | true => rw [if_pos rfl, isSome_map, utf8Decode_isSome rest, Bool.true_and]
          | false =>
            rw [Bool.false_and]
            rfl
    rw [if_neg h4, if_neg h4]
    by_cases h5 : b < 245
    · rw [if_pos h5, if_pos h5]
      match bs with
      | [] => rfl
      | b1 :: bs1 =>
        dsimp only
        match bs1 with
        | [] => rfl
        | b2 :: bs2 =>
          dsimp only
          match bs2 with
          | [] => rfl
          | b3 :: rest =>
            dsimp only
            cases hc : guard4 b b1 b2 b3 with
            | true => rw [if_pos rfl, isSome_map, utf8Decode_isSome rest, Bool.true_and]
            | false =>
              rw [Bool.false_and]
              rfl
    rw [if_neg h5, if_neg h5]
    rfl

/-! ## The example's `query_callback` (zn_query.py, lines 54–57) -/

/-- The value of the example's `time` local variable, which in Python is
either the literal string `'(not specified)'` or the numeric
`timestamp.time` — a union type, modelled as a sum. -/
inductive PubTime where
  | notSpecified
  | stamp (t : Nat)
deriving DecidableEq

/-- The `time` expression of `query_callback` (line 55):
`'(not specified)' if reply.data.data_info is None else reply.data.data_info.timestamp.time`. -/
def pubTimeOf (reply : Reply) : PubTime :=
  match reply.data.data_info with
  | none => PubTime.notSpecified
  | some di => PubTime.stamp di.timestamp.time

/-- The line printed by `query_callback`: the resource name, the UTF-8-decoded
payload (as code points) and the publication time. -/
structure PrintedLine where
  res_name : String
  payload_text : List Nat
  pub_time : PubTime
deriving DecidableEq

/-- The example's `query_callback` (lines 54–57): computes the publication
time, then prints resource name, `payload.decode("utf-8")` and the time; a
`UnicodeDecodeError` from the strict decode propagates out before anything is
printed, modelled as `Except.error ()`. -/
def query_callback (reply : Reply) : Except Unit PrintedLine :=
  match utf8Decode reply.data.payload with
  | none => Except.error ()
  | some cs => Except.ok ⟨reply.data.res_name, cs, pubTimeOf reply⟩

/-- C9: for every reply passed to `query_callback`, the printed publication
time is `'(not specified)'` exactly when `reply.data.data_info` is `None`,
and is `reply.data.data_info.timestamp.time` otherwise; whenever a line is
printed, its time field is that value. -/
theorem query_callback_time (reply : Reply) :
    (pubTimeOf reply = PubTime.notSpecified ↔ reply.data.data_info = none) ∧
    (∀ di, reply.data.data_info = some di →
      pubTimeOf reply = PubTime.stamp di.timestamp.time) ∧
    (∀ line, query_callback reply = Except.ok line → line.pub_time = pubTimeOf reply) := by
  refine ⟨?_, ?_, ?_⟩
  · cases h : reply.data.data_info <;> simp [pubTimeOf, h]
  · intro di h
    simp [pubTimeOf, h]
  · intro line h
    unfold query_callback at h
    cases hd : utf8Decode reply.data.payload <;> rw [hd] at h
    · exact absurd h (by simp)
    · cases h
      rfl

/-- A reply carrying a timestamped data info, used to exercise the model. -/
def replyT : Reply :=
  ⟨{ res_name := "/demo/example/item", payload := [104, 105],
     data_info := some ⟨⟨42⟩⟩ }⟩

theorem query_callback_time_witness :
    pubTimeOf replyT = PubTime.stamp 42 ∧
    (PrintedLine.mk "/demo/example/item" [104, 105] (PubTime.stamp 42)).pub_time =
      pubTimeOf replyT :=
  ⟨(query_callback_time replyT).2.1 ⟨⟨42⟩⟩ rfl,
   (query_callback_time replyT).2.2 ⟨"/demo/example/item", [104, 105], PubTime.stamp 42⟩ rfl⟩

/-- C10: `query_callback` decodes the payload as UTF-8 unconditionally — on a
payload that is not valid UTF-8 it raises (errors before printing), and on a
valid UTF-8 payload it prints without error. -/
theorem query_callback_utf8_strict (reply : Reply) :
    (validUtf8 reply.data.payload = false → query_callback reply = Except.error ()) ∧
    (validUtf8 reply.data.payload = true → ∃ line, query_callback reply = Except.ok line) := by
  constructor
  · intro h
    have hs : (utf8Decode reply.data.payload).isSome = false := by
      rw [utf8Decode_isSome, h]
    unfold query_callback
    cases hd : utf8Decode reply.data.payload
    · rfl
    · rw [hd] at hs
      exact absurd hs (by simp)
  · intro h
    have hs : (utf8Decode reply.data.payload).isSome = true := by
      rw [utf8Decode_isSome, h]
    unfold query_callback
    cases hd : utf8Decode reply.data.payload
    · rw [hd] at hs
      exact absurd hs (by simp)
    · exact ⟨_, rfl⟩

/-- A reply whose payload `[0xff]` is not valid UTF-8. -/
def replyBad : Reply :=
  ⟨{ res_name := "/demo/example/item", payload := [255], data_info := none }⟩

theorem query_callback_utf8_strict_witness :
    validUtf8 replyBad.data.payload = false ∧
    query_callback replyBad = Except.error () ∧
    validUtf8 replyA.data.payload = true ∧
    ∃ line, query_callback replyA = Except.ok line :=
  ⟨rfl, (query_callback_utf8_strict replyBad).1 rfl, rfl,
   (query_callback_utf8_strict replyA).2 rfl⟩

end Zenoh
